import Mathlib

/-!
Shallow embedding of the zfit core sources checked here:
`zfit/core/parameter.py`, `zfit/models/dist_tfp.py`, and the surface of
the FFT convolution engine exercised by `tests/test_pdf_fftconv.py`.
Machine floats are modelled as rationals; Python exceptions become an
explicit error type; TF tensor shapes become list lengths.
-/

/-- Error taxonomy of the embedded code.  Each constructor stands for one
raise site (or internal signal) in the source.  The spec groups them
into named classes: `consistencyFloating` (RuntimeError at
parameter.py:55) and `unknownBandwidth` (ValueError at dist_tfp.py:219)
are the spec's `ConsistencyError`; `overdefinedWeights` (OverdefinedError
at dist_tfp.py:191) and `configurationInterp` are the spec's
`ConfigurationError`; `numericalInstability` (the finiteness assertion at
dist_tfp.py:102) is the spec's `NumericalInstabilityError`;
`specificNotImpl` is the internal not-supported sampling signal
(`SpecificFunctionNotImplementedError`); `floatingTypeError` is the
TypeError at parameter.py:61; `stepSizeNan` the ValueError at
parameter.py:125; `shapeMismatch` a failing `set_shape` merge. -/
inductive ZErr where
  | consistencyFloating
  | floatingTypeError
  | stepSizeNan
  | numericalInstability
  | overdefinedWeights
  | unknownBandwidth
  | configurationInterp
  | specificNotImpl
  | shapeMismatch
  deriving DecidableEq, Repr

/-- A Python value as far as the `isinstance(value, bool)` dispatch in the
`floating` setter can observe it (in Python, `True` is a `bool` while `1`
is an `int`, so the two constructors are distinct here as well). -/
inductive PyVal where
  | pyBool (b : Bool)
  | pyInt (n : Int)
  | pyFloat (q : ℚ)
  | pyStr (s : String)
  | pyNone
  deriving DecidableEq, Repr

/-- A Python float as a parameter bound or a space limit: a finite value,
one of the two infinities, or NaN. -/
inductive PyFloatV where
  | fin (q : ℚ)
  | posInf
  | negInf
  | nan
  deriving DecidableEq, Repr

/-- Finiteness test used by `tf.debugging.assert_all_finite`: true exactly
on finite values (NaN and both infinities fail). -/
def PyFloatV.isFinite : PyFloatV → Bool
  | PyFloatV.fin _ => true
  | _ => false

/-- The rational carried by a finite `PyFloatV` (junk `0` otherwise; only
applied behind a finiteness guard). -/
def PyFloatV.toQ : PyFloatV → ℚ
  | PyFloatV.fin q => q
  | _ => 0

/-- The attribute state of a `zfit.Parameter` read by the embedded
accessors: `_floating`, the TF variable's `trainable` flag, `_step_size`,
and the two limits (defaulted to `-np.infty` / `np.infty` by the
constructor when not given). -/
structure ParamState where
  floating_flag : Bool
  trainable : Bool
  step_size_attr : Option ℚ
  lower_limit : PyFloatV
  upper_limit : PyFloatV
  deriving DecidableEq, Repr

/-- The `BaseParameter.floating` getter (parameter.py:52-56): raises when
`_floating` is set but the TF variable is not trainable, otherwise
returns the flag. -/
def BaseParameter.floating (p : ParamState) : Except ZErr Bool :=
  if p.floating_flag && !p.trainable then Except.error ZErr.consistencyFloating
  else Except.ok p.floating_flag

/-- The `BaseParameter.floating` setter (parameter.py:58-62): TypeError
unless the assigned value is a `bool`; the raise happens before any
mutation, so on error the returned state is the input state unchanged. -/
def BaseParameter.floating_set (p : ParamState) (v : PyVal) :
    Option ZErr × ParamState :=
  match v with
  | PyVal.pyBool b => (none, { p with floating_flag := b })
  | _ => (some ZErr.floatingTypeError, p)

/-- Python `x == np.nan`: an IEEE comparison with NaN is false for every
float `x`, NaN itself included, so this test never succeeds. -/
def pyEqNan (_x : ℚ) : Bool := false

/-- The `Parameter.step_size` getter (parameter.py:113-129).  When
`_step_size` is unset the code assigns the constant `0.001` and then
tests `step_size == np.nan` (here `pyEqNan`); the test never fires, so
the smaller infinite-bound default `0.0001` and the ValueError are
unreachable. -/
def Parameter.step_size (p : ParamState) : Except ZErr ℚ :=
  match p.step_size_attr with
  | some s => Except.ok s
  | none =>
    let s : ℚ := 1 / 1000
    if pyEqNan s then
      if p.lower_limit = PyFloatV.negInf || p.upper_limit = PyFloatV.posInf then
        Except.ok (1 / 10000)
      else
        Except.error ZErr.stepSizeNan
    else
      Except.ok s

/-- An unset-step-size parameter with both bounds infinite (the
constructor's defaults). -/
def paramUnsetInf : ParamState :=
  ⟨true, true, none, PyFloatV.negInf, PyFloatV.posInf⟩

/-- An unset-step-size parameter with finite bounds. -/
def paramUnsetFin : ParamState :=
  ⟨true, true, none, PyFloatV.fin (-5), PyFloatV.fin 5⟩

/-- Claim C1: for every Parameter whose floating flag is true while its
backing storage is not trainable, reading `floating` raises the
consistency error (spec's `ConsistencyError`; a RuntimeError in the
code) and never returns a value. -/
theorem floating_get_raises_when_untrainable (p : ParamState)
    (hf : p.floating_flag = true) (ht : p.trainable = false) :
    BaseParameter.floating p = Except.error ZErr.consistencyFloating ∧
      ∀ b : Bool, BaseParameter.floating p ≠ Except.ok b := by
  constructor
  · simp [BaseParameter.floating, hf, ht]
  · intro b
    simp [BaseParameter.floating, hf, ht]

/-- Witness for C1: a concrete floating-but-untrainable parameter. -/
theorem floating_get_raises_when_untrainable_witness :
    BaseParameter.floating ⟨true, false, none, PyFloatV.negInf, PyFloatV.posInf⟩ =
      Except.error ZErr.consistencyFloating ∧
      ∀ b : Bool, BaseParameter.floating
        ⟨true, false, none, PyFloatV.negInf, PyFloatV.posInf⟩ ≠ Except.ok b :=
  floating_get_raises_when_untrainable _ rfl rfl

/-- Claim C2 counterexample: with the step size unset, the getter returns
the very same default `0.001` whether the bounds are infinite or finite,
so an infinite bound does not yield a strictly smaller default. -/
theorem step_size_infinite_not_smaller :
    Parameter.step_size paramUnsetInf = Except.ok (1 / 1000) ∧
      Parameter.step_size paramUnsetFin = Except.ok (1 / 1000) ∧
      ¬ ∃ d : ℚ, Parameter.step_size paramUnsetInf = Except.ok d ∧ d < 1 / 1000 := by
  refine ⟨rfl, rfl, ?_⟩
  rintro ⟨d, hd, hlt⟩
  simp [Parameter.step_size, paramUnsetInf, pyEqNan] at hd
  simp [hd] at hlt

/-- Claim C2 (amended): for every Parameter whose step size was not
explicitly set, the getter returns the constant default `0.001`
regardless of the bounds; the smaller infinite-bound default is dead
code because its guard compares against NaN with `==`. -/
theorem step_size_constant_default (p : ParamState)
    (h : p.step_size_attr = none) :
    Parameter.step_size p = Except.ok (1 / 1000) := by
  simp [Parameter.step_size, h, pyEqNan]

/-- Witness for the amended C2: the infinite-bound parameter. -/
theorem step_size_constant_default_witness :
    Parameter.step_size paramUnsetInf = Except.ok (1 / 1000) :=
  step_size_constant_default paramUnsetInf rfl

/-- Claim C10: assigning any non-bool value to `floating` raises a
TypeError and leaves the whole parameter state, in particular the stored
floating flag, unchanged. -/
theorem floating_set_type_error (p : ParamState) (v : PyVal)
    (h : ∀ b : Bool, v ≠ PyVal.pyBool b) :
    (BaseParameter.floating_set p v).1 = some ZErr.floatingTypeError ∧
      (BaseParameter.floating_set p v).2 = p := by
  cases v with
  | pyBool b => exact absurd rfl (h b)
  | pyInt n => exact ⟨rfl, rfl⟩
  | pyFloat q => exact ⟨rfl, rfl⟩
  | pyStr s => exact ⟨rfl, rfl⟩
  | pyNone => exact ⟨rfl, rfl⟩

/-- Witness for C10: assigning the integer `1` (not a Python bool). -/
theorem floating_set_type_error_witness :
    (BaseParameter.floating_set paramUnsetInf (PyVal.pyInt 1)).1 =
        some ZErr.floatingTypeError ∧
      (BaseParameter.floating_set paramUnsetInf (PyVal.pyInt 1)).2 = paramUnsetInf :=
  floating_set_type_error paramUnsetInf (PyVal.pyInt 1) (by intro b h; cases h)

/-- The `WrapDistribution._analytic_integrate` method (dist_tfp.py:97-103):
unstack the rectangular limits into per-axis components, assert every
bound finite (`tf.debugging.assert_all_finite`, which rejects NaN and
both infinities), then return the per-axis `cdf(upper) - cdf(lower)` of
the wrapped distribution. -/
def WrapDistribution.analytic_integrate (cdf : ℚ → ℚ)
    (lower upper : List PyFloatV) : Except ZErr (List ℚ) :=
  if (lower ++ upper).all PyFloatV.isFinite then
    Except.ok (List.zipWith (fun u l => cdf u.toQ - cdf l.toQ) upper lower)
  else
    Except.error ZErr.numericalInstability

/-- Claim C3: the analytic integrate fails with the numerical-instability
signal exactly when some limit is non-finite, and on all-finite limits it
returns exactly `CDF(upper) - CDF(lower)` per axis. -/
theorem analytic_integrate_spec (cdf : ℚ → ℚ) (lower upper : List PyFloatV) :
    (WrapDistribution.analytic_integrate cdf lower upper =
        Except.error ZErr.numericalInstability ↔
      ∃ v ∈ lower ++ upper, v.isFinite = false) ∧
    ∀ ls us : List ℚ, lower = ls.map PyFloatV.fin → upper = us.map PyFloatV.fin →
      WrapDistribution.analytic_integrate cdf lower upper =
        Except.ok (List.zipWith (fun u l => cdf u - cdf l) us ls) := by
  constructor
  · unfold WrapDistribution.analytic_integrate
    by_cases h : (lower ++ upper).all PyFloatV.isFinite
    · simp only [h, if_true]
      constructor
      · intro hcontra; cases hcontra
      · rintro ⟨v, hv, hvfin⟩
        have := List.all_eq_true.mp h v hv
        rw [hvfin] at this
        cases this
    · simp only [h, if_false]
      constructor
      · intro _
        rcases List.exists_mem_of_ne_nil (lower ++ upper) (by
          intro hnil
          apply h
          simp [hnil]) with ⟨w, hw⟩
        by_cases hall : ∀ v ∈ lower ++ upper, v.isFinite = true
        · exact absurd (List.all_eq_true.mpr hall) h
        · push_neg at hall
          rcases hall with ⟨v, hv, hvf⟩
          exact ⟨v, hv, by simpa using hvf⟩
      · intro _; rfl
  · intro ls us hls hus
    subst hls; subst hus
    unfold WrapDistribution.analytic_integrate
    have hfin : ((ls.map PyFloatV.fin) ++ (us.map PyFloatV.fin)).all PyFloatV.isFinite = true := by
      rw [List.all_eq_true]
      intro v hv
      rcases List.mem_append.mp hv with hmem | hmem <;>
        rcases List.mem_map.mp hmem with ⟨q, _, hq⟩ <;>
        simp [← hq, PyFloatV.isFinite]
    rw [if_pos hfin, List.zipWith_map]
    simp only [PyFloatV.toQ]

/-- Witness for C3: a non-finite upper limit triggers the signal; finite
limits give the CDF difference (with `cdf` the identity function). -/
theorem analytic_integrate_spec_witness :
    WrapDistribution.analytic_integrate id [PyFloatV.fin 1] [PyFloatV.posInf] =
        Except.error ZErr.numericalInstability ∧
      WrapDistribution.analytic_integrate id [PyFloatV.fin 1] [PyFloatV.fin 3] =
        Except.ok [2] := by
  constructor
  · exact (analytic_integrate_spec id [PyFloatV.fin 1] [PyFloatV.posInf]).1.mpr
      ⟨PyFloatV.posInf, by simp, rfl⟩
  · have h := (analytic_integrate_spec id [PyFloatV.fin 1] [PyFloatV.fin 3]).2
      [1] [3] rfl rfl
    norm_num at h
    exact h

/-- The rectangular-limit data of a `Space` as `tfd_analytic_sample`
reads it: the scalar bounds handed to the cdf and the axis count the
space reports through `n_obs`. -/
structure SpaceLimits where
  lower : ℚ
  upper : ℚ
  n_obs : Nat
  deriving DecidableEq, Repr

/-- One draw of `z.random.uniform` between `lo` and `hi`, with the raw
unit-interval randomness `u` of the generator made explicit. -/
def pyUniform (lo hi u : ℚ) : ℚ := lo + u * (hi - lo)

/-- The function `tfd_analytic_sample` (dist_tfp.py:29-51): compute the
cdf at both rectangular bounds, draw a `(n, 1)`-shaped uniform tensor
between the two cdf values, map it through the distribution's quantile,
and run `set_shape((None, limits.n_obs))` on the result, which fails
unless the single sampled column matches the space's axis count. -/
def tfd_analytic_sample (cdf quantile : ℚ → ℚ) (n : Nat)
    (limits : SpaceLimits) (rng : Fin n → ℚ) : Except ZErr (List ℚ) :=
  let lowerProbLim := cdf limits.lower
  let upperProbLim := cdf limits.upper
  let probSample := List.ofFn (fun i => pyUniform lowerProbLim upperProbLim (rng i))
  let sample := probSample.map quantile
  if limits.n_obs = 1 then Except.ok sample else Except.error ZErr.shapeMismatch

/-- The method `WrapDistribution._analytic_sample` (dist_tfp.py:105-106):
delegates to `tfd_analytic_sample` with the instance's distribution. -/
def WrapDistribution.analytic_sample (cdf quantile : ℚ → ℚ) (n : Nat)
    (limits : SpaceLimits) (rng : Fin n → ℚ) : Except ZErr (List ℚ) :=
  tfd_analytic_sample cdf quantile n limits rng

/-- Claim C6: on a one-axis space with ordered cdf bounds and a
unit-interval random source, analytic sampling succeeds with exactly `n`
rows of one column each, and every sampled value is the quantile of a
probability lying in `[CDF(lower), CDF(upper)]`. -/
theorem analytic_sample_spec (cdf quantile : ℚ → ℚ) (n : Nat)
    (limits : SpaceLimits) (rng : Fin n → ℚ)
    (hobs : limits.n_obs = 1)
    (hrng : ∀ i, 0 ≤ rng i ∧ rng i ≤ 1)
    (hcdf : cdf limits.lower ≤ cdf limits.upper) :
    ∃ s : List ℚ,
      WrapDistribution.analytic_sample cdf quantile n limits rng = Except.ok s ∧
      s.length = n ∧
      ∀ x ∈ s, ∃ p : ℚ, cdf limits.lower ≤ p ∧ p ≤ cdf limits.upper ∧
        x = quantile p := by
  refine ⟨(List.ofFn (fun i => pyUniform (cdf limits.lower) (cdf limits.upper)
    (rng i))).map quantile, ?_, ?_, ?_⟩
  · unfold WrapDistribution.analytic_sample tfd_analytic_sample
    rw [if_pos hobs]
  · simp
  · intro x hx
    rcases List.mem_map.mp hx with ⟨p, hp, hqp⟩
    rcases (List.mem_ofFn _ _).mp hp with ⟨i, hi⟩
    have hi2 : pyUniform (cdf limits.lower) (cdf limits.upper) (rng i) = p := hi
    refine ⟨p, ?_, ?_, hqp.symm⟩
    · rw [← hi2]
      unfold pyUniform
      nlinarith [(hrng i).1, (hrng i).2]
    · rw [← hi2]
      unfold pyUniform
      nlinarith [(hrng i).1, (hrng i).2]

/-- Witness for C6: two samples of the identity distribution on a
one-axis space with explicit randomness one half and one quarter. -/
theorem analytic_sample_spec_witness :
    ∃ s : List ℚ,
      WrapDistribution.analytic_sample id id 2 ⟨0, 1, 1⟩
          (fun i => if i = 0 then 1 / 2 else 1 / 4) = Except.ok s ∧
      s.length = 2 ∧
      ∀ x ∈ s, ∃ p : ℚ, (SpaceLimits.mk 0 1 1).lower ≤ p ∧
        p ≤ (SpaceLimits.mk 0 1 1).upper ∧ x = id p := by
  have h := analytic_sample_spec id id 2 ⟨0, 1, 1⟩
    (fun i => if i = 0 then 1 / 2 else 1 / 4) rfl
    (by intro i; fin_cases i <;> norm_num)
    (by norm_num)
  simpa using h

/-- A zfit `Data` object as the KDE constructor observes it: the
unstacked one-dimensional sample positions plus optionally attached
weights. -/
structure ZfitDataIn where
  values : List ℚ
  weights : Option (List ℚ)
  deriving DecidableEq, Repr

/-- The `data` argument of `GaussianKDE1DimExactV1.__init__`: either a
`ZfitData` or a bare tensor of positions. -/
inductive DataInput where
  | zdata (d : ZfitDataIn)
  | tensor (vs : List ℚ)
  deriving DecidableEq, Repr

/-- The `bandwidth` argument: a numeric value or a heuristic name. -/
inductive BandwidthInput where
  | numeric (q : ℚ)
  | strSpec (s : String)
  deriving DecidableEq, Repr

/-- The bandwidth a construction stores: a shared scalar (numeric input,
silverman, scott) or one value per sample point (adaptive). -/
inductive BWVal where
  | scalar (q : ℚ)
  | perPoint (qs : List ℚ)
  deriving DecidableEq, Repr

/-- The state a successful `GaussianKDE1DimExactV1.__init__` leaves
behind: the unstacked data, the resolved weights, the mixture priors
(`probs` fed to the categorical distribution), and the bandwidth. -/
structure KDEState where
  data : List ℚ
  data_weights : Option (List ℚ)
  probs : List ℚ
  bandwidth : BWVal
  deriving DecidableEq, Repr

/-- The mixture priors of dist_tfp.py:199-202: the weights normalized by
their sum when given, else the uniform `1/N` broadcast. -/
def kdeProbs (vals : List ℚ) (weights : Option (List ℚ)) : List ℚ :=
  match weights with
  | some ws => ws.map (fun w => w / ws.sum)
  | none => vals.map (fun _ => 1 / (vals.length : ℚ))

/-- Termination measure for the adaptive branch's self-construction: the
adaptive name sits strictly above everything else, and the nested call
uses the silverman name. -/
def bwRank : BandwidthInput → Nat
  | BandwidthInput.strSpec s => if s = "adaptiveV1" then 1 else 0
  | _ => 0

/-- The weights handling of dist_tfp.py:188-195, run before the bandwidth
dispatch: giving explicit weights while the `ZfitData` already carries
weights is an error; otherwise the data weights (when present) become
the weights, and the data is unstacked into a tensor. -/
def kdeResolveWeights (dataIn : DataInput) (weightsIn : Option (List ℚ)) :
    Except ZErr (List ℚ × Option (List ℚ)) :=
  match dataIn with
  | DataInput.zdata d =>
    match d.weights with
    | some dw =>
      match weightsIn with
      | some _ => Except.error ZErr.overdefinedWeights
      | none => Except.ok (d.values, some dw)
    | none => Except.ok (d.values, weightsIn)
  | DataInput.tensor vs => Except.ok (vs, weightsIn)

/-- The body of `GaussianKDE1DimExactV1.__init__` (dist_tfp.py:173-238)
after the `bandwidth is None` normalization, with the `kde` module's
bandwidth rules passed in as functions (`bwSil`, `bwScott` for
`kde.bandwidth_silverman` / `kde.bandwidth_scott` on the data, and
`bwAdapt` for `kde.bandwidth_adaptiveV1` on the data and the nested
estimate's bandwidth, absorbing its pdf closure).  The second component
of the result counts how many nested `type(self)(...)` constructions ran,
so the recursion depth of the adaptive branch can be stated. -/
def GaussianKDE1DimExactV1.constructCore (bwSil bwScott : List ℚ → ℚ)
    (bwAdapt : List ℚ → ℚ → List ℚ) (dataIn : DataInput)
    (bw : BandwidthInput) (weightsIn : Option (List ℚ)) :
    Except ZErr KDEState × Nat :=
  match kdeResolveWeights dataIn weightsIn with
  | Except.error e => (Except.error e, 0)
  | Except.ok (vals, weights) =>
    let probs := kdeProbs vals weights
    match bw with
    | BandwidthInput.numeric q =>
      (Except.ok ⟨vals, weights, probs, BWVal.scalar q⟩, 0)
    | BandwidthInput.strSpec s =>
      if s = "silverman" then
        (Except.ok ⟨vals, weights, probs, BWVal.scalar (bwSil vals)⟩, 0)
      else if s = "scott" then
        (Except.ok ⟨vals, weights, probs, BWVal.scalar (bwScott vals)⟩, 0)
      else if h : s = "adaptiveV1" then
        let nested := GaussianKDE1DimExactV1.constructCore bwSil bwScott bwAdapt
          (DataInput.tensor vals) (BandwidthInput.strSpec "silverman") weights
        match nested.1 with
        | Except.error e => (Except.error e, 1 + nested.2)
        | Except.ok st =>
          let silBW := match st.bandwidth with
            | BWVal.scalar q => q
            | BWVal.perPoint _ => 0
          (Except.ok ⟨vals, weights, probs, BWVal.perPoint (bwAdapt vals silBW)⟩,
            1 + nested.2)
      else
        (Except.error ZErr.unknownBandwidth, 0)
termination_by bwRank bw
decreasing_by simp [bwRank, h]

/-- The constructor `GaussianKDE1DimExactV1.__init__`: a `None` bandwidth
defaults to the silverman heuristic (dist_tfp.py:186-187), then the core
body runs. -/
def GaussianKDE1DimExactV1.construct (bwSil bwScott : List ℚ → ℚ)
    (bwAdapt : List ℚ → ℚ → List ℚ) (dataIn : DataInput)
    (bandwidthIn : Option BandwidthInput) (weightsIn : Option (List ℚ)) :
    Except ZErr KDEState × Nat :=
  GaussianKDE1DimExactV1.constructCore bwSil bwScott bwAdapt dataIn
    (bandwidthIn.getD (BandwidthInput.strSpec "silverman")) weightsIn

/-- Claim C4: constructing the KDE with an explicit `weights` argument
while the input `ZfitData` already carries weights raises the
double-weights error (spec's `ConfigurationError`; `OverdefinedError` in
the code) at construction time, regardless of the bandwidth argument. -/
theorem kde_double_weights_error (bwSil bwScott : List ℚ → ℚ)
    (bwAdapt : List ℚ → ℚ → List ℚ) (d : ZfitDataIn) (dw w : List ℚ)
    (bandwidthIn : Option BandwidthInput) (hd : d.weights = some dw) :
    (GaussianKDE1DimExactV1.construct bwSil bwScott bwAdapt
        (DataInput.zdata d) bandwidthIn (some w)).1 =
      Except.error ZErr.overdefinedWeights := by
  unfold GaussianKDE1DimExactV1.construct
  rw [GaussianKDE1DimExactV1.constructCore]
  simp [kdeResolveWeights, hd]

/-- Witness for C4: concrete weighted data plus explicit weights. -/
theorem kde_double_weights_error_witness :
    (GaussianKDE1DimExactV1.construct (fun _ => 1) (fun _ => 1) (fun _ _ => [1])
        (DataInput.zdata ⟨[0, 1], some [1, 2]⟩) none (some [3, 4])).1 =
      Except.error ZErr.overdefinedWeights :=
  kde_double_weights_error (fun _ => 1) (fun _ => 1) (fun _ _ => [1])
    ⟨[0, 1], some [1, 2]⟩ [1, 2] [3, 4] none rfl

/-- Claim C5: constructing the KDE with a bandwidth string that is none
of the recognized heuristic names (`silverman`, `scott`, `adaptiveV1`)
raises the unknown-bandwidth error (spec's `ConsistencyError`; a
ValueError in the code) at construction time, whenever the weights
handling itself does not already fail. -/
theorem kde_unknown_bandwidth_error (bwSil bwScott : List ℚ → ℚ)
    (bwAdapt : List ℚ → ℚ → List ℚ) (dataIn : DataInput)
    (weightsIn : Option (List ℚ)) (s : String)
    (vals : List ℚ) (weights : Option (List ℚ))
    (hok : kdeResolveWeights dataIn weightsIn = Except.ok (vals, weights))
    (hs1 : s ≠ "silverman") (hs2 : s ≠ "scott") (hs3 : s ≠ "adaptiveV1") :
    (GaussianKDE1DimExactV1.construct bwSil bwScott bwAdapt dataIn
        (some (BandwidthInput.strSpec s)) weightsIn).1 =
      Except.error ZErr.unknownBandwidth := by
  unfold GaussianKDE1DimExactV1.construct
  rw [GaussianKDE1DimExactV1.constructCore]
  simp [hok, hs1, hs2, hs3]

/-- Witness for C5: the unrecognized bandwidth name given as the string
made of the four characters of a rule of thumb that does not exist. -/
theorem kde_unknown_bandwidth_error_witness :
    (GaussianKDE1DimExactV1.construct (fun _ => 1) (fun _ => 1) (fun _ _ => [1])
        (DataInput.tensor [0, 1]) (some (BandwidthInput.strSpec "mine")) none).1 =
      Except.error ZErr.unknownBandwidth :=
  kde_unknown_bandwidth_error (fun _ => 1) (fun _ => 1) (fun _ _ => [1])
    (DataInput.tensor [0, 1]) none "mine" [0, 1] none rfl
    (by decide) (by decide) (by decide)

/-- Claim C7: the adaptive bandwidth construction performs exactly one
nested self-construction, that nested instance is the silverman one
(visible in the final per-point bandwidth, which applies the adaptive
rule to the nested silverman bandwidth), the construction succeeds, and
a silverman construction itself performs no nested construction at all,
so the recursion stops after exactly one level. -/
theorem kde_adaptive_one_nested_level (bwSil bwScott : List ℚ → ℚ)
    (bwAdapt : List ℚ → ℚ → List ℚ) (dataIn : DataInput)
    (weightsIn : Option (List ℚ)) (vals : List ℚ) (weights : Option (List ℚ))
    (hok : kdeResolveWeights dataIn weightsIn = Except.ok (vals, weights)) :
    (GaussianKDE1DimExactV1.construct bwSil bwScott bwAdapt dataIn
        (some (BandwidthInput.strSpec "adaptiveV1")) weightsIn).2 = 1 ∧
    (GaussianKDE1DimExactV1.construct bwSil bwScott bwAdapt dataIn
        (some (BandwidthInput.strSpec "adaptiveV1")) weightsIn).1 =
      Except.ok ⟨vals, weights, kdeProbs vals weights,
        BWVal.perPoint (bwAdapt vals (bwSil vals))⟩ ∧
    (GaussianKDE1DimExactV1.construct bwSil bwScott bwAdapt dataIn
        (some (BandwidthInput.strSpec "silverman")) weightsIn).2 = 0 := by
  have hnested : GaussianKDE1DimExactV1.constructCore bwSil bwScott bwAdapt
      (DataInput.tensor vals) (BandwidthInput.strSpec "silverman") weights =
      (Except.ok ⟨vals, weights, kdeProbs vals weights,
        BWVal.scalar (bwSil vals)⟩, 0) := by
    rw [GaussianKDE1DimExactV1.constructCore]
    simp [kdeResolveWeights]
  have houter : GaussianKDE1DimExactV1.constructCore bwSil bwScott bwAdapt
      dataIn (BandwidthInput.strSpec "adaptiveV1") weightsIn =
      (Except.ok ⟨vals, weights, kdeProbs vals weights,
        BWVal.perPoint (bwAdapt vals (bwSil vals))⟩, 1) := by
    rw [GaussianKDE1DimExactV1.constructCore]
    simp [hok, hnested]
  have hsil : GaussianKDE1DimExactV1.constructCore bwSil bwScott bwAdapt
      dataIn (BandwidthInput.strSpec "silverman") weightsIn =
      (Except.ok ⟨vals, weights, kdeProbs vals weights,
        BWVal.scalar (bwSil vals)⟩, 0) := by
    rw [GaussianKDE1DimExactV1.constructCore]
    simp [hok]
  unfold GaussianKDE1DimExactV1.construct
  simp [houter, hsil]

/-- Witness for C7: a concrete adaptive construction over two points. -/
theorem kde_adaptive_one_nested_level_witness :
    (GaussianKDE1DimExactV1.construct (fun vs => vs.sum) (fun _ => 1)
        (fun vs b => vs.map (fun v => v + b)) (DataInput.tensor [0, 1])
        (some (BandwidthInput.strSpec "adaptiveV1")) none).2 = 1 ∧
    (GaussianKDE1DimExactV1.construct (fun vs => vs.sum) (fun _ => 1)
        (fun vs b => vs.map (fun v => v + b)) (DataInput.tensor [0, 1])
        (some (BandwidthInput.strSpec "adaptiveV1")) none).1 =
      Except.ok ⟨[0, 1], none, kdeProbs [0, 1] none,
        BWVal.perPoint ((List.map (fun v => v + List.sum [0, 1]) [0, 1]))⟩ ∧
    (GaussianKDE1DimExactV1.construct (fun vs => vs.sum) (fun _ => 1)
        (fun vs b => vs.map (fun v => v + b)) (DataInput.tensor [0, 1])
        (some (BandwidthInput.strSpec "silverman")) none).2 = 0 :=
  kde_adaptive_one_nested_level (fun vs => vs.sum) (fun _ => 1)
    (fun vs b => vs.map (fun v => v + b)) (DataInput.tensor [0, 1]) none
    [0, 1] none rfl

/-- An interpolation scheme of the convolution engine: piecewise linear
or a spline of the given order. -/
inductive Interp where
  | linear
  | spline (order : Nat)
  deriving DecidableEq, Repr

/-- Modelled from the spec: the parse of the order field of a
`spline:<k>` interpolation specification (the convolution engine source
`zfit/models/convolution.py` is not under `src/`).  The field is read as
a base-ten natural number; an empty or non-digit field does not parse. -/
def parseNatChars (cs : List Char) : Option Nat :=
  if !cs.isEmpty && cs.all Char.isDigit then
    some (cs.foldl (fun acc c => 10 * acc + (c.toNat - 48)) 0)
  else none

/-- Modelled from the spec: the interpolation-specification parser of the
FFT convolution engine (`zfit/models/convolution.py` is not under
`src/`).  The spec admits `linear`, `spline` (cubic default), and
`spline:<k>` with `k` a positive integer parsed from the string; any
other specification, including a spline order that is not a positive
integer, is the spec's `ConfigurationError`. -/
def FFTConvV1.parseInterpChars : List Char → Except ZErr Interp
  | ['l', 'i', 'n', 'e', 'a', 'r'] => Except.ok Interp.linear
  | ['s', 'p', 'l', 'i', 'n', 'e'] => Except.ok (Interp.spline 3)
  | 's' :: 'p' :: 'l' :: 'i' :: 'n' :: 'e' :: ':' :: rest =>
    match parseNatChars rest with
    | some k =>
      if 0 < k then Except.ok (Interp.spline k)
      else Except.error ZErr.configurationInterp
    | none => Except.error ZErr.configurationInterp
  | _ => Except.error ZErr.configurationInterp

/-- Modelled from the spec: `FFTConvV1.__init__` parses the interpolation
string and stores the resulting spline order in the engine's
`_spline_order` attribute (`none` on the linear scheme). -/
def FFTConvV1.construct_interpolation (s : String) : Except ZErr (Option Nat) :=
  match FFTConvV1.parseInterpChars s.data with
  | Except.ok Interp.linear => Except.ok none
  | Except.ok (Interp.spline k) => Except.ok (some k)
  | Except.error e => Except.error e

/-- Claim C8: constructing with `spline:5` stores spline order five, with
`spline:3` order three, and every `spline:<k>` whose order field is not
a positive integer fails with the configuration error. -/
theorem interpolation_spline_order_spec :
    FFTConvV1.construct_interpolation "spline:5" = Except.ok (some 5) ∧
    FFTConvV1.construct_interpolation "spline:3" = Except.ok (some 3) ∧
    ∀ t : String, (∀ k, parseNatChars t.data = some k → k = 0) →
      FFTConvV1.construct_interpolation ("spline:" ++ t) =
        Except.error ZErr.configurationInterp := by
  refine ⟨rfl, rfl, ?_⟩
  intro t ht
  unfold FFTConvV1.construct_interpolation
  rw [String.data_append]
  show (match FFTConvV1.parseInterpChars
    ('s' :: 'p' :: 'l' :: 'i' :: 'n' :: 'e' :: ':' :: t.data) with
    | Except.ok Interp.linear => Except.ok none
    | Except.ok (Interp.spline k) => Except.ok (some k)
    | Except.error e => Except.error e) = Except.error ZErr.configurationInterp
  simp only [FFTConvV1.parseInterpChars]
  cases hp : parseNatChars t.data with
  | none => simp
  | some k =>
    have hk := ht k hp
    subst hk
    simp

/-- Witness for C8: a non-numeric order field and the zero order both
fail construction. -/
theorem interpolation_spline_order_spec_witness :
    FFTConvV1.construct_interpolation ("spline:" ++ "abc") =
        Except.error ZErr.configurationInterp ∧
      FFTConvV1.construct_interpolation ("spline:" ++ "0") =
        Except.error ZErr.configurationInterp := by
  constructor
  · exact interpolation_spline_order_spec.2.2 "abc" (by
      intro k hk
      have hnone : parseNatChars "abc".data = none := rfl
      rw [hnone] at hk
      cases hk)
  · exact interpolation_spline_order_spec.2.2 "0" (by
      intro k hk
      have h0 : parseNatChars "0".data = some 0 := rfl
      rw [h0] at hk
      exact (Option.some.inj hk).symm)

/-- Modelled from the spec: the sampling orchestration of `FFTConvV1`
(`zfit/models/convolution.py` is not under `src/`).  A `sample(n)` call
first tries the specific `_sample` of the model; when that raises the
internal `SpecificFunctionNotImplementedError` signal the engine falls
back to the generic base-class rejection sampler; a success and any
other error pass through. -/
def FFTConvV1.sample (n : Nat) (specific : Except ZErr (List ℚ))
    (fallback : Nat → List ℚ) : Except ZErr (List ℚ) :=
  match specific with
  | Except.ok pts => Except.ok pts
  | Except.error ZErr.specificNotImpl => Except.ok (fallback n)
  | Except.error e => Except.error e

/-- Claim C9: when the child sampler raises the not-supported signal, the
model's `sample(n)` still returns `n` points through the fallback
sampler (assumed sound, as its source is not under `src/`), and the
signal never escapes a `sample` call whatever the child did. -/
theorem fftconv_sample_fallback (n : Nat) (fallback : Nat → List ℚ)
    (hfb : (fallback n).length = n) :
    (∃ pts : List ℚ,
        FFTConvV1.sample n (Except.error ZErr.specificNotImpl) fallback =
          Except.ok pts ∧ pts.length = n) ∧
      ∀ specific : Except ZErr (List ℚ),
        FFTConvV1.sample n specific fallback ≠
          Except.error ZErr.specificNotImpl := by
  constructor
  · exact ⟨fallback n, rfl, hfb⟩
  · intro specific
    cases specific with
    | ok pts => simp [FFTConvV1.sample]
    | error e =>
      cases e <;> simp [FFTConvV1.sample]

/-- Witness for C9: three points from a concrete constant fallback. -/
theorem fftconv_sample_fallback_witness :
    (∃ pts : List ℚ,
        FFTConvV1.sample 3 (Except.error ZErr.specificNotImpl)
          (fun m => List.replicate m 0) = Except.ok pts ∧ pts.length = 3) ∧
      ∀ specific : Except ZErr (List ℚ),
        FFTConvV1.sample 3 specific (fun m => List.replicate m 0) ≠
          Except.error ZErr.specificNotImpl :=
  fftconv_sample_fallback 3 (fun m => List.replicate m 0) (by simp)
